import Mathlib

/-!
# SparkFun MAX1704x Fuel Gauge library: register-abstraction model

A shallow embedding of the MAX1704x fuel-gauge driver.  The repository
ships only the class header (`SparkFun_MAX1704x_Fuel_Gauge_Arduino_Library.h`);
the implementation file is not present, so the bodies of the operations are
modelled from the specification's description of each operation, under the
constraints imposed by the declarations that are present in the header
(return types, default arguments, register addresses and command words).

The bus is modelled as a register file (16-bit words addressed by an 8-bit
register pointer), a transport-health flag (`ok = false` models a transport
that NACKs every transaction, as in the spec's failing-bus test property),
and a transcript of the transactions issued, in order.  A logical 16-bit
read or write (physically a pointer write plus two byte transfers) is one
transcript entry.
-/

/-- Register address of VCELL (header line 38): 12-bit A/D measurement of
battery voltage, left-justified in 16 bits. -/
def MAX17043_VCELL : Nat := 0x02

/-- Register address of SOC (header line 39): 16-bit state of charge. -/
def MAX17043_SOC : Nat := 0x04

/-- Register address of MODE (header line 40): special commands. -/
def MAX17043_MODE : Nat := 0x06

/-- Register address of CONFIG (header line 43): compensation MSB,
SLEEP bit 7, ALRT bit 5, ATHD bits 4-0. -/
def MAX17043_CONFIG : Nat := 0x0C

/-- Register address of VRESET_ID (header line 46): MSB bits 7-1 = VRESET,
MSB bit 0 = comparator enable, LSB = factory ID. -/
def MAX17048_VRESET_ID : Nat := 0x18

/-- Register address of COMMAND (header line 48): special commands. -/
def MAX17043_COMMAND : Nat := 0xFE

/-- Quick-start command word for the MODE register (header line 60). -/
def MAX17043_MODE_QUICKSTART : Nat := 0x4000

/-- Power-on-reset command word for the COMMAND register (header line 75). -/
def MAX17043_COMMAND_POR : Nat := 0x5400

/-- Generic transport-error code (header line 90): the transport reports
status codes 1-4, and 5 is the driver's own generic error value; 0 is
success. -/
def MAX17043_GENERIC_ERROR : Nat := 5

/-- A bus transaction issued by the driver: a logical 16-bit register read
or a logical 16-bit register write (data recorded as the 16-bit word). -/
inductive Transaction where
  | read : Nat → Transaction
  | write : Nat → Nat → Transaction
deriving DecidableEq, Repr

/-- The bus as seen by the driver: the peripheral's register file (16-bit
words, stored here as arbitrary naturals truncated mod 2^16 on access),
whether the transport is healthy (`ok = false`: every transaction is
NACKed), and the transcript of transactions issued so far. -/
structure Bus where
  regs : Nat → Nat
  ok : Bool
  log : List Transaction

/-- Modelled from the spec: the value produced by a 16-bit register read,
MSB first.  The implementation file is not in src; the header (lines
247-250) declares `uint16_t read16(uint8_t address)` — a plain 16-bit
return with no side error channel — so on transport failure the value 0
(an empty receive buffer) is surfaced, folded into the 16-bit domain. -/
def read16val (b : Bus) (address : Nat) : Nat :=
  if b.ok then b.regs address % 65536 else 0

/-- Modelled from the spec: a read issues exactly one bus transaction
(register-pointer write plus two-byte read, one logical transaction) and
does not modify any register. -/
def busAfterRead (b : Bus) (address : Nat) : Bus :=
  { b with log := b.log ++ [Transaction.read address] }

/-- Modelled from the spec: `read16` reads 16 bits from the requested
address; implementation not in src, header lines 247-250. -/
def read16 (b : Bus) (address : Nat) : Nat × Bus :=
  (read16val b address, busAfterRead b address)

/-- Modelled from the spec: the status returned by a 16-bit register
write — 0 on success, the generic error code when the transport fails.
Implementation not in src; header lines 239-245. -/
def write16status (b : Bus) : Nat :=
  if b.ok then 0 else MAX17043_GENERIC_ERROR

/-- Modelled from the spec: a write issues exactly one bus transaction;
the register takes the 16-bit value only if the transport delivers it. -/
def busAfterWrite (b : Bus) (data address : Nat) : Bus :=
  { regs := fun a => if b.ok = true ∧ a = address then data % 65536 else b.regs a
    ok := b.ok
    log := b.log ++ [Transaction.write address (data % 65536)] }

/-- Modelled from the spec: `write16` writes 16 bits (MSB first) to the
requested address; implementation not in src, header lines 239-245. -/
def write16 (b : Bus) (data address : Nat) : Nat × Bus :=
  (write16status b, busAfterWrite b data address)

/-- The driver instance: the chip full-scale selector, fixed at
construction.  Header line 95 declares `SFE_MAX1704X(int full_scale = 5)`
and line 259 `int _full_scale = 5`: the default is a 5 V full scale. -/
structure SFE_MAX1704X where
  full_scale : Int := 5

/-- Modelled from the spec: `getVoltage` reads VCELL, takes the upper 12
bits of the raw word as the ADC code, and scales by the per-bit step —
1.25 mV per bit at 5 V full scale, doubled at 10 V full scale (step =
full_scale / 4000 volts per code).  No register write occurs.
Implementation not in src; header lines 113-115.  The float result is
modelled as an exact rational. -/
def getVoltage (d : SFE_MAX1704X) (b : Bus) : ℚ × Bus :=
  let r := read16 b MAX17043_VCELL
  (((r.1 / 16 : Nat) : ℚ) * (d.full_scale : ℚ) / 4000, r.2)

/-- Modelled from the spec: `getSOC` reads SOC and decodes percent from
the high byte with a fractional low byte (value / 256).  Implementation
not in src; header lines 117-121. -/
def getSOC (b : Bus) : ℚ × Bus :=
  let r := read16 b MAX17043_SOC
  ((r.1 : ℚ) / 256, r.2)

/-- Modelled from the spec: `quickStart` writes the quick-start command
word to MODE; success is purely the write's transport outcome.
Implementation not in src; header lines 107-111. -/
def quickStart (b : Bus) : Nat × Bus :=
  write16 b MAX17043_MODE_QUICKSTART MAX17043_MODE

/-- Modelled from the spec: the ATHD field is stored as `32 - percent`. -/
def encodeThreshold (percent : Nat) : Nat := 32 - percent

/-- Modelled from the spec: the percent threshold is `32 - field`. -/
def decodeThreshold (field : Nat) : Nat := 32 - field

/-- Modelled from the spec: `getThreshold` reads CONFIG and decodes the
low 5 bits (ATHD) as `32 - field`.  Implementation not in src; header
lines 127-131. -/
def getThreshold (b : Bus) : Nat × Bus :=
  let r := read16 b MAX17043_CONFIG
  (decodeThreshold (r.1 % 32), r.2)

/-- Modelled from the spec: `setThreshold` rejects a percent outside
1..32 before issuing any bus transaction, returning a failure code;
otherwise it read-modify-writes CONFIG, replacing the low 5 bits with
`32 - percent`.  Implementation not in src; header lines 133-138. -/
def setThreshold (b : Bus) (percent : Nat) : Nat × Bus :=
  if 1 ≤ percent ∧ percent ≤ 32 then
    let r := read16 b MAX17043_CONFIG
    write16 r.2 (r.1 / 32 * 32 + encodeThreshold percent) MAX17043_CONFIG
  else (MAX17043_GENERIC_ERROR, b)

/-- Modelled from the spec: `getAlert` reads CONFIG's ALRT bit (bit 5);
if `clear` is true and the bit is set, a follow-up write clears the bit;
the pre-clear value (1 or 0, per the header's uint8_t return) is
returned.  Implementation not in src; header lines 140-145. -/
def getAlert (b : Bus) (clear : Bool) : Nat × Bus :=
  let r := read16 b MAX17043_CONFIG
  if r.1 / 32 % 2 = 1 then
    if clear then (1, (write16 r.2 (r.1 / 64 * 64 + r.1 % 32) MAX17043_CONFIG).2)
    else (1, r.2)
  else (0, r.2)

/-- Modelled from the spec: `clearAlert` unconditionally read-modify-
writes CONFIG clearing the ALRT bit (bit 5).  Implementation not in src;
header lines 147-149. -/
def clearAlert (b : Bus) : Nat × Bus :=
  let r := read16 b MAX17043_CONFIG
  write16 r.2 (r.1 / 64 * 64 + r.1 % 32) MAX17043_CONFIG

/-- Modelled from the spec: `sleep` sets CONFIG's SLEEP bit (bit 7) via
read-modify-write.  Implementation not in src; header lines 151-153. -/
def sleep (b : Bus) : Nat × Bus :=
  let r := read16 b MAX17043_CONFIG
  write16 r.2 (r.1 / 256 * 256 + 128 + r.1 % 128) MAX17043_CONFIG

/-- Modelled from the spec: `wake` clears CONFIG's SLEEP bit (bit 7) via
read-modify-write.  Implementation not in src; header lines 155-157. -/
def wake (b : Bus) : Nat × Bus :=
  let r := read16 b MAX17043_CONFIG
  write16 r.2 (r.1 / 256 * 256 + r.1 % 128) MAX17043_CONFIG

/-- Modelled from the spec: `reset` writes the power-on-reset command
word to COMMAND — a single write, no read-modify-write — and, per the
spec's error-handling convention for integer-returning operations,
returns 0 on success and a nonzero code on transport failure.
Implementation not in src; header lines 159-162 (whose doc comment
states the opposite return convention from every sibling operation and
from the spec; the spec's uniform 0-on-success convention is followed
here). -/
def reset (b : Bus) : Nat × Bus :=
  write16 b MAX17043_COMMAND_POR MAX17043_COMMAND

/-- Modelled from the spec: `softReset` writes the same power-on-reset
word to COMMAND as `reset`; the header (lines 225-228) declares a void
return, so only the resulting bus is produced.  Implementation not in
src. -/
def softReset (b : Bus) : Bus :=
  (write16 b MAX17043_COMMAND_POR MAX17043_COMMAND).2

/-- Modelled from the spec: `getCompensation` reads CONFIG and returns
its high byte unchanged (raw 8-bit pass-through).  Implementation not in
src; header lines 169-172. -/
def getCompensation (b : Bus) : Nat × Bus :=
  let r := read16 b MAX17043_CONFIG
  (r.1 / 256, r.2)

/-- Modelled from the spec: `setCompensation` read-modify-writes CONFIG,
placing the 8-bit value in the high byte with no transformation beyond
byte placement.  Implementation not in src; header lines 174-180. -/
def setCompensation (b : Bus) (newCompensation : Nat) : Nat × Bus :=
  let r := read16 b MAX17043_CONFIG
  write16 r.2 (newCompensation % 256 * 256 + r.1 % 256) MAX17043_CONFIG

/-- Modelled from the spec: `getResetVoltage` reads VRESET_ID and
returns the 7-bit VRESET field, bits 7-1 of the high byte (word bits
15-9).  Implementation not in src; header lines 194-196. -/
def getResetVoltage (b : Bus) : Nat × Bus :=
  let r := read16 b MAX17048_VRESET_ID
  (r.1 / 512, r.2)

/-- Modelled from the spec: `setResetVoltage` read-modify-writes
VRESET_ID, replacing only bits 7-1 of the high byte (word bits 15-9)
with the 7-bit value; bit 0 of the high byte (comparator enable, word
bit 8) and the ID byte are preserved.  Implementation not in src; header
lines 187-192. -/
def setResetVoltage (b : Bus) (threshold : Nat) : Nat × Bus :=
  let r := read16 b MAX17048_VRESET_ID
  write16 r.2 (threshold % 128 * 512 + r.1 % 512) MAX17048_VRESET_ID

/-- Modelled from the spec: `enableComparator` read-modify-writes bit 0
of VRESET_ID's high byte (word bit 8, set per the header's comment),
independent of the VRESET field.  Implementation not in src; header
lines 198-201. -/
def enableComparator (b : Bus) : Nat × Bus :=
  let r := read16 b MAX17048_VRESET_ID
  write16 r.2 (r.1 / 512 * 512 + 256 + r.1 % 256) MAX17048_VRESET_ID

/-- Modelled from the spec: `disableComparator` read-modify-writes bit 0
of VRESET_ID's high byte (word bit 8, cleared per the header's comment),
independent of the VRESET field.  Implementation not in src; header
lines 203-206. -/
def disableComparator (b : Bus) : Nat × Bus :=
  let r := read16 b MAX17048_VRESET_ID
  write16 r.2 (r.1 / 512 * 512 + r.1 % 256) MAX17048_VRESET_ID

/-- C9: softReset() behaves identically to reset(): both perform a single
write of the fixed power-on-reset command word 0x5400 to the COMMAND
register, with no read-modify-write and no other bus transaction. -/
theorem softReset_identical_reset (b : Bus) :
    softReset b = (reset b).2 ∧
    (softReset b).log = b.log ++ [Transaction.write MAX17043_COMMAND MAX17043_COMMAND_POR] ∧
    (softReset b).ok = b.ok ∧
    (∀ a : Nat, a ≠ MAX17043_COMMAND → (softReset b).regs a = b.regs a) := by
  refine ⟨rfl, ?_, rfl, ?_⟩
  · simp [softReset, write16, busAfterWrite, MAX17043_COMMAND_POR]
  · intro a ha
    simp [softReset, write16, busAfterWrite, ha]

/-- C2: every integer-returning mutating operation, including reset(),
returns 0 if and only if the operation succeeded (the transport is
healthy, and for setThreshold the argument is also in domain); 0 is
reserved exclusively for success. -/
theorem zero_iff_success (b : Bus) (p v : Nat) :
    ((quickStart b).1 = 0 ↔ b.ok = true) ∧
    ((reset b).1 = 0 ↔ b.ok = true) ∧
    ((clearAlert b).1 = 0 ↔ b.ok = true) ∧
    ((sleep b).1 = 0 ↔ b.ok = true) ∧
    ((wake b).1 = 0 ↔ b.ok = true) ∧
    ((setCompensation b v).1 = 0 ↔ b.ok = true) ∧
    ((setResetVoltage b v).1 = 0 ↔ b.ok = true) ∧
    ((enableComparator b).1 = 0 ↔ b.ok = true) ∧
    ((disableComparator b).1 = 0 ↔ b.ok = true) ∧
    ((write16 b v p).1 = 0 ↔ b.ok = true) ∧
    ((setThreshold b p).1 = 0 ↔ (b.ok = true ∧ 1 ≤ p ∧ p ≤ 32)) := by
  by_cases hp : 1 ≤ p ∧ p ≤ 32 <;>
    cases hok : b.ok <;>
      simp [quickStart, reset, clearAlert, sleep, wake, setCompensation, setResetVoltage,
        enableComparator, disableComparator, setThreshold, write16, write16status, read16,
        read16val, busAfterRead, busAfterWrite, MAX17043_GENERIC_ERROR, hok, hp]

/-- C3: for every percent outside 1..32, setThreshold returns a nonzero
failure code and issues zero bus transactions, leaving the bus (registers
and transcript) unchanged. -/
theorem setThreshold_rejects (b : Bus) (percent : Nat)
    (h : ¬(1 ≤ percent ∧ percent ≤ 32)) :
    (setThreshold b percent).1 = MAX17043_GENERIC_ERROR ∧
    (setThreshold b percent).1 ≠ 0 ∧
    (setThreshold b percent).2 = b := by
  simp [setThreshold, h, MAX17043_GENERIC_ERROR]

/-- Witness for C3: setThreshold rejects percent 0 and percent 33 on a
concrete healthy bus, without touching it. -/
theorem setThreshold_rejects_witness :
    (¬(1 ≤ 0 ∧ 0 ≤ 32) ∧
      (setThreshold ⟨fun _ => 0x971C, true, []⟩ 0).1 = MAX17043_GENERIC_ERROR ∧
      (setThreshold ⟨fun _ => 0x971C, true, []⟩ 0).1 ≠ 0 ∧
      (setThreshold ⟨fun _ => 0x971C, true, []⟩ 0).2 = ⟨fun _ => 0x971C, true, []⟩) ∧
    (¬(1 ≤ 33 ∧ 33 ≤ 32) ∧
      (setThreshold ⟨fun _ => 0x971C, true, []⟩ 33).1 = MAX17043_GENERIC_ERROR ∧
      (setThreshold ⟨fun _ => 0x971C, true, []⟩ 33).1 ≠ 0 ∧
      (setThreshold ⟨fun _ => 0x971C, true, []⟩ 33).2 = ⟨fun _ => 0x971C, true, []⟩) :=
  ⟨⟨by decide, setThreshold_rejects _ 0 (by decide)⟩,
   ⟨by decide, setThreshold_rejects _ 33 (by decide)⟩⟩

/-- C4: encode (32 - percent) and decode (32 - field) are mutual inverses
on 1..32, and operationally setThreshold(percent) followed by
getThreshold() on a healthy bus returns percent. -/
theorem threshold_roundtrip (b : Bus) (percent : Nat) (hok : b.ok = true)
    (h1 : 1 ≤ percent) (h2 : percent ≤ 32) :
    decodeThreshold (encodeThreshold percent) = percent ∧
    (getThreshold (setThreshold b percent).2).1 = percent := by
  constructor
  · simp only [decodeThreshold, encodeThreshold]
    omega
  · simp [setThreshold, getThreshold, read16, read16val, write16, busAfterRead,
      busAfterWrite, write16status, encodeThreshold, decodeThreshold, hok, h1, h2]
    omega

/-- Witness for C4: on a concrete healthy bus with the power-up CONFIG
value, setting threshold 4 and reading it back yields 4. -/
theorem threshold_roundtrip_witness :
    (⟨fun _ => 0x971C, true, []⟩ : Bus).ok = true ∧ 1 ≤ 4 ∧ 4 ≤ 32 ∧
    (decodeThreshold (encodeThreshold 4) = 4 ∧
      (getThreshold (setThreshold ⟨fun _ => 0x971C, true, []⟩ 4).2).1 = 4) :=
  ⟨rfl, by decide, by decide,
    threshold_roundtrip ⟨fun _ => 0x971C, true, []⟩ 4 rfl (by decide) (by decide)⟩

/-- C5: for every raw 16-bit VCELL register value c on a healthy bus,
getVoltage on a full-scale-5 instance returns (c >> 4) * 0.00125 volts,
a full-scale-10 instance returns exactly double that, and getVoltage
writes no register and issues exactly one read transaction. -/
theorem getVoltage_formula (regs : Nat → Nat) (log : List Transaction) :
    (getVoltage ⟨5⟩ ⟨regs, true, log⟩).1
      = ((regs MAX17043_VCELL % 65536 / 16 : Nat) : ℚ) * (125 / 100000) ∧
    (getVoltage ⟨10⟩ ⟨regs, true, log⟩).1 = 2 * (getVoltage ⟨5⟩ ⟨regs, true, log⟩).1 ∧
    (getVoltage ⟨5⟩ ⟨regs, true, log⟩).2.regs = regs ∧
    (getVoltage ⟨5⟩ ⟨regs, true, log⟩).2.log = log ++ [Transaction.read MAX17043_VCELL] := by
  refine ⟨?_, ?_, rfl, rfl⟩
  · simp [getVoltage, read16, read16val]
    ring
  · simp [getVoltage, read16, read16val]
    ring

/-- C10: the constructor's full_scale parameter defaults to 5, so a
default-constructed instance is a full-scale-5 instance: its getVoltage
agrees with an explicitly constructed full-scale-5 instance on every bus,
at 1.25 mV per bit of the aligned VCELL code. -/
theorem default_full_scale (b : Bus) (regs : Nat → Nat) (log : List Transaction) :
    ({} : SFE_MAX1704X).full_scale = 5 ∧
    getVoltage {} b = getVoltage ⟨5⟩ b ∧
    (getVoltage {} ⟨regs, true, log⟩).1
      = ((regs MAX17043_VCELL % 65536 / 16 : Nat) : ℚ) * (125 / 100000) := by
  refine ⟨rfl, rfl, ?_⟩
  simp [getVoltage, read16, read16val]
  ring

/-- C6: on a healthy bus with CONFIG's ALRT bit (bit 5) set,
getAlert(clear=true) returns the pre-clear value 1 and clears the bit,
so a subsequent getAlert(clear=false) returns 0; when clear is false, or
when the bit is not set, only the read transaction is issued (no
write). -/
theorem getAlert_pre_clear (b : Bus) (hok : b.ok = true)
    (h : b.regs MAX17043_CONFIG % 65536 / 32 % 2 = 1) :
    (getAlert b true).1 = 1 ∧
    (getAlert (getAlert b true).2 false).1 = 0 ∧
    (∀ b' : Bus, (getAlert b' false).2.log = b'.log ++ [Transaction.read MAX17043_CONFIG]) ∧
    (∀ b' : Bus, b'.regs MAX17043_CONFIG % 65536 / 32 % 2 = 0 →
      (getAlert b' true).2.log = b'.log ++ [Transaction.read MAX17043_CONFIG]) := by
  refine ⟨?_, ?_, ?_, ?_⟩
  · simp [getAlert, read16, read16val, hok, h]
  · have hc : (b.regs MAX17043_CONFIG % 65536 / 64 * 64 + b.regs MAX17043_CONFIG % 65536 % 32)
        % 65536 / 32 % 2 = 0 := by omega
    simp [getAlert, read16, read16val, write16, busAfterRead, busAfterWrite,
      write16status, hok, h, hc]
  · intro b'
    cases hok' : b'.ok
    · simp [getAlert, read16, read16val, busAfterRead, hok']
    · simp [getAlert, read16, read16val, busAfterRead, hok']
      split <;> rfl
  · intro b' h'
    cases hok' : b'.ok <;>
      simp [getAlert, read16, read16val, busAfterRead, hok', h']

/-- Witness for C6: a concrete healthy bus whose CONFIG has ALRT set
(0x973C): getAlert(true) returns 1 and a following getAlert(false)
returns 0. -/
theorem getAlert_pre_clear_witness :
    (⟨fun _ => 0x973C, true, []⟩ : Bus).ok = true ∧
    (⟨fun _ => 0x973C, true, []⟩ : Bus).regs MAX17043_CONFIG % 65536 / 32 % 2 = 1 ∧
    ((getAlert ⟨fun _ => 0x973C, true, []⟩ true).1 = 1 ∧
      (getAlert (getAlert ⟨fun _ => 0x973C, true, []⟩ true).2 false).1 = 0 ∧
      (∀ b' : Bus, (getAlert b' false).2.log = b'.log ++ [Transaction.read MAX17043_CONFIG]) ∧
      (∀ b' : Bus, b'.regs MAX17043_CONFIG % 65536 / 32 % 2 = 0 →
        (getAlert b' true).2.log = b'.log ++ [Transaction.read MAX17043_CONFIG])) :=
  ⟨rfl, by decide, getAlert_pre_clear ⟨fun _ => 0x973C, true, []⟩ rfl (by decide)⟩

/-- C8: the compensation byte is a raw pass-through in CONFIG's high
byte: for every v in 0..255, setCompensation(v) followed by
getCompensation() on a healthy bus returns v. -/
theorem compensation_roundtrip (b : Bus) (v : Nat) (hok : b.ok = true) (hv : v < 256) :
    (getCompensation (setCompensation b v).2).1 = v := by
  simp [setCompensation, getCompensation, read16, read16val, write16, busAfterRead,
    busAfterWrite, write16status, hok]
  omega

/-- Witness for C8: on a concrete healthy bus, setting compensation 0x97
and reading it back yields 0x97. -/
theorem compensation_roundtrip_witness :
    (⟨fun _ => 0x421C, true, []⟩ : Bus).ok = true ∧ 0x97 < 256 ∧
    (getCompensation (setCompensation ⟨fun _ => 0x421C, true, []⟩ 0x97).2).1 = 0x97 :=
  ⟨rfl, by decide, compensation_roundtrip ⟨fun _ => 0x421C, true, []⟩ 0x97 rfl (by decide)⟩

/-- C7: on a healthy bus, setResetVoltage rewrites only word bits 15-9 of
VRESET_ID (the 7-bit VRESET field), preserving bit 8 (comparator enable)
and the ID byte; enableComparator and disableComparator touch only bit 8,
preserving the VRESET field and the ID byte; in particular
getResetVoltage after enableComparator (or disableComparator) equals
getResetVoltage before. -/
theorem vreset_frame (regs : Nat → Nat) (log : List Transaction) (v : Nat) :
    ((setResetVoltage ⟨regs, true, log⟩ v).2.regs MAX17048_VRESET_ID) % 512
      = regs MAX17048_VRESET_ID % 65536 % 512 ∧
    ((setResetVoltage ⟨regs, true, log⟩ v).2.regs MAX17048_VRESET_ID) / 256 % 2
      = regs MAX17048_VRESET_ID % 65536 / 256 % 2 ∧
    ((setResetVoltage ⟨regs, true, log⟩ v).2.regs MAX17048_VRESET_ID) / 512 = v % 128 ∧
    ((enableComparator ⟨regs, true, log⟩).2.regs MAX17048_VRESET_ID) / 512
      = regs MAX17048_VRESET_ID % 65536 / 512 ∧
    ((enableComparator ⟨regs, true, log⟩).2.regs MAX17048_VRESET_ID) % 256
      = regs MAX17048_VRESET_ID % 65536 % 256 ∧
    ((disableComparator ⟨regs, true, log⟩).2.regs MAX17048_VRESET_ID) / 512
      = regs MAX17048_VRESET_ID % 65536 / 512 ∧
    ((disableComparator ⟨regs, true, log⟩).2.regs MAX17048_VRESET_ID) % 256
      = regs MAX17048_VRESET_ID % 65536 % 256 ∧
    (getResetVoltage (enableComparator ⟨regs, true, log⟩).2).1
      = (getResetVoltage ⟨regs, true, log⟩).1 ∧
    (getResetVoltage (disableComparator ⟨regs, true, log⟩).2).1
      = (getResetVoltage ⟨regs, true, log⟩).1 := by
  refine ⟨?_, ?_, ?_, ?_, ?_, ?_, ?_, ?_, ?_⟩ <;>
    simp [setResetVoltage, enableComparator, disableComparator, getResetVoltage,
      read16, read16val, write16, busAfterRead, busAfterWrite, write16status] <;>
    omega

/-- C1 counterexample: with a failing transport, read16 returns a value
inside the 16-bit domain equal to a successful read of a zeroed
register, and getVoltage returns 0 — inside its valid 0-5 V range,
indistinguishable from a genuine empty-cell reading: bus failure is
folded into the value's own domain, not surfaced on a distinct error
channel. -/
theorem no_error_channel_counterexample :
    (read16 ⟨fun _ => 0x1234, false, []⟩ MAX17043_VCELL).1
      = (read16 ⟨fun _ => 0, true, []⟩ MAX17043_VCELL).1 ∧
    (getVoltage ⟨5⟩ ⟨fun _ => 0x1234, false, []⟩).1
      = (getVoltage ⟨5⟩ ⟨fun _ => 0, true, []⟩).1 ∧
    (getVoltage ⟨5⟩ ⟨fun _ => 0x1234, false, []⟩).1 = 0 ∧
    (0 : ℚ) ≤ (getVoltage ⟨5⟩ ⟨fun _ => 0x1234, false, []⟩).1 ∧
    (getVoltage ⟨5⟩ ⟨fun _ => 0x1234, false, []⟩).1 ≤ 5 := by
  norm_num [getVoltage, read16, read16val]

/-- C1 amended: the header declares `uint16_t read16` and plain float
accessors, with no side error channel; a transport failure is therefore
folded into the value domain — read16 yields 0 and getVoltage and getSOC
yield 0 (values inside their ordinary ranges) on every failing bus. -/
theorem failed_reads_fold_to_zero (regs : Nat → Nat) (log : List Transaction)
    (a : Nat) (d : SFE_MAX1704X) :
    (read16 ⟨regs, false, log⟩ a).1 = 0 ∧
    (getVoltage d ⟨regs, false, log⟩).1 = 0 ∧
    (getSOC ⟨regs, false, log⟩).1 = 0 := by
  norm_num [read16, read16val, getVoltage, getSOC]
